import Mathlib

/-!
Shallow embedding of `tools/build.py` from the `material-icons-plasma`
repository, and proofs about the claims of its specification.

The script is a linear pipeline: it reads a CSV mapping table, and for each
row locates a Material Design source SVG, normalizes it with Inkscape, sets
fill colors on its shape elements, copies the result into the theme tree,
rasterizes it to nine PNG sizes with rsvg-convert, optimizes each PNG with
optipng, and finally writes an `index.theme` descriptor.

Modelling decisions:
* Filesystem paths are lists of components; the output filesystem is a
  function from paths to optional file contents.  The Material source
  repository is modelled separately (the script only reads from it).
* The three external tools are abstract deterministic functions that either
  produce output or fail with a nonzero exit code (`Except Nat`); a
  `subprocess.run(..., check=True)` failure is the `Except.error` case.
* SVG files are carried as parsed XML element trees (`xml.etree.ElementTree`
  parse/serialize round-trips are the identity in the model); PNG files are
  abstract byte strings.
* `print` calls are recorded in a log; the `written` field records every
  path written during a run (pure instrumentation: it receives exactly the
  paths passed to the filesystem write, and nothing reads it).
-/

set_option maxRecDepth 4000

namespace MaterialIconsPlasma

/-- A filesystem path, as its list of components. -/
abbrev Path := List String

/-- An XML element as parsed by `xml.etree.ElementTree`: a (namespace
qualified) tag, an ordered attribute list, and child elements.  Text content
is irrelevant to the script and is not modelled. -/
inductive Xml where
  | elem (tag : String) (attrs : List (String × String)) (children : List Xml)

mutual

def decEqXml : (x y : Xml) → Decidable (x = y)
  | .elem t a c, .elem t' a' c' =>
    if h1 : t = t' then
      if h2 : a = a' then
        match decEqXmlList c c' with
        | isTrue h3 => isTrue (by rw [h1, h2, h3])
        | isFalse h3 => isFalse (fun h => by cases h; exact h3 rfl)
      else isFalse (fun h => by cases h; exact h2 rfl)
    else isFalse (fun h => by cases h; exact h1 rfl)

def decEqXmlList : (xs ys : List Xml) → Decidable (xs = ys)
  | [], [] => isTrue rfl
  | [], _ :: _ => isFalse (fun h => by cases h)
  | _ :: _, [] => isFalse (fun h => by cases h)
  | x :: xs, y :: ys =>
    match decEqXml x y, decEqXmlList xs ys with
    | isTrue h1, isTrue h2 => isTrue (by rw [h1, h2])
    | isFalse h1, _ => isFalse (fun h => by cases h; exact h1 rfl)
    | _, isFalse h2 => isFalse (fun h => by cases h; exact h2 rfl)

end

instance : DecidableEq Xml := decEqXml

/-- The content of a file: an SVG (kept as its parsed tree), PNG bytes, or
plain text. -/
inductive FileData where
  | svg (tree : Xml)
  | png (bytes : String)
  | text (s : String)
deriving DecidableEq

/-- The output filesystem: a partial map from paths to file contents. -/
abbrev FS := Path → Option FileData

/-- Write (create or overwrite) one file. -/
def writeFS (fs : FS) (p : Path) (d : FileData) : FS :=
  fun q => if q = p then some d else fs q

/-- The mutable state threaded through one run of the script:
the output filesystem, the `dir_entries` set (kept as a duplicate-free list
in insertion order; only membership and the final sorted listing matter),
everything printed to stdout, and — as pure instrumentation — the list of
paths written so far during this run. -/
structure BuildState where
  fs : FS
  dirEntries : List String
  log : List String
  written : List Path

/-- Append one `print` line to the log. -/
def logMsg (st : BuildState) (m : String) : BuildState :=
  { st with log := st.log ++ [m] }

/-- Write a file, recording the written path. -/
def writeFile (st : BuildState) (p : Path) (d : FileData) : BuildState :=
  { st with fs := writeFS st.fs p d, written := st.written ++ [p] }

/-- `dir_entries.add(e)`: Python set insertion. -/
def addDirEntry (st : BuildState) (e : String) : BuildState :=
  if e ∈ st.dirEntries then st else { st with dirEntries := st.dirEntries ++ [e] }

/-- The three external tools, as abstract deterministic functions.  A
`.error code` result stands for the subprocess exiting with nonzero status
`code`, which `subprocess.run(..., check=True)` turns into an uncaught
`CalledProcessError`.
* `inkscape src` : the plain SVG that `inkscape --export-plain-svg
  --export-area-drawing --vacuum-defs` writes for source content `src`
  (already parsed, since the script immediately re-parses the file);
* `rsvgConvert size tree` : the PNG bytes `rsvg-convert -w size -h size`
  produces from an SVG file holding `tree`;
* `optipng bytes` : the optimized bytes `optipng -o7` leaves in place. -/
structure Tools where
  inkscape : String → Except Nat Xml
  rsvgConvert : Nat → Xml → Except Nat String
  optipng : String → Except Nat String

/-- How a run can abort with an uncaught exception. -/
inductive BuildError where
  | toolFailed (exitCode : Nat)
  | badRow
deriving DecidableEq

/-- One directory named like the searched Material icon id, as found by
`material_src_dir.rglob(f"**/{material_id}")`: its base name, and the content
of its `materialicons/24px.svg` when that file exists. -/
structure IconDir where
  name : String
  default24 : Option String
deriving DecidableEq

/-- The checked-out `material-design-icons` repository, abstracted to the
directories `rglob` can return, in traversal order. -/
structure MaterialRepo where
  dirs : List IconDir
deriving DecidableEq

/-- The parsed command-line arguments (`get_args`). -/
structure Args where
  ci : Bool
  material_path : String
  theme : String
deriving DecidableEq

/-! ## The SVG fill rewrite of `normalize_svg` (build.py lines 50-64) -/

/-- The SVG XML namespace registered by the script. -/
def svgNS : String := "http://www.w3.org/2000/svg"

/-- `shape_elements` (build.py line 57). -/
def shape_elements : List String :=
  ["path", "rect", "circle", "ellipse", "polygon", "polyline", "line"]

/-- The namespace-qualified tag ElementTree searches for:
`f".//\x7b{ns}\x7d{shape_name}"` matches elements whose tag is the string
`\x7bns\x7dname`. -/
def qualTag (name : String) : String := "\x7b" ++ svgNS ++ "\x7d" ++ name

/-- The qualified tags of all shape elements. -/
def shapeTags : List String := shape_elements.map qualTag

/-- `element.set(k, v)` on an ElementTree attribute list: replace the value
in place when the key is present, else append the pair. -/
def setAttr : List (String × String) → String → String → List (String × String)
  | [], k, v => [(k, v)]
  | (k', v') :: rest, k, v =>
    if k' = k then (k, v) :: rest else (k', v') :: setAttr rest k v

/-- `element.get(k)`: first value bound to the key. -/
def lookupAttr : List (String × String) → String → Option String
  | [], _ => none
  | (k', v) :: rest, k => if k' = k then some v else lookupAttr rest k

/-- The tag of an element. -/
def Xml.tag : Xml → String
  | .elem t _ _ => t

/-- The attribute list of an element. -/
def Xml.attrs : Xml → List (String × String)
  | .elem _ a _ => a

/-- The children of an element. -/
def Xml.children : Xml → List Xml
  | .elem _ _ c => c

/-- `x.get "fill"`. -/
def getAttr (x : Xml) (k : String) : Option String := lookupAttr x.attrs k

mutual

/-- Set `fill` to `c` on this element if its tag is a shape tag, and on every
shape element below it.  Combined effect, on each element of the subtree, of
the loops `for shape_name in shape_elements: for element in
root.findall(f".//...{shape_name}"): element.set("fill", fill_color)`
(each element matches at most one shape name). -/
def setFillAll (c : String) : Xml → Xml
  | .elem t a ch =>
    .elem t (if t ∈ shapeTags then setAttr a "fill" c else a) (setFillList c ch)

/-- `setFillAll` on each element of a list. -/
def setFillList (c : String) : List Xml → List Xml
  | [] => []
  | x :: xs => setFillAll c x :: setFillList c xs

end

/-- The whole fill rewrite of `normalize_svg`: `root.findall(".//…")` matches
proper descendants of the root only, so the root element itself is never
touched, and every shape element strictly below it gets `fill = c`. -/
def applyFillShapes (c : String) : Xml → Xml
  | .elem t a ch => .elem t a (setFillList c ch)

mutual

/-- All elements of a tree: the root and every descendant. -/
def xmlNodes : Xml → List Xml
  | .elem t a ch => .elem t a ch :: xmlNodesList ch

/-- All elements of the trees of a list. -/
def xmlNodesList : List Xml → List Xml
  | [] => []
  | x :: xs => xmlNodes x ++ xmlNodesList xs

end

/-- Build.py line 51: `fill_color = "#232629" if theme == "light" else
"#eff0f1"` (Breeze light/dark text colors). -/
def fillColor (theme : String) : String :=
  if theme = "light" then "#232629" else "#eff0f1"

/-! ## The pipeline (build.py) -/

/-- Render a path the way Python prints it. -/
def pathStr (p : Path) : String := String.intercalate "/" p

/-- `normalize_svg(source_path, dest_path, theme)` (build.py lines 30-64).
`src` is the content of the source file when it exists (`source_path.exists()`
is `src.isSome`).  On success Inkscape writes the plain SVG to `dest`, the
script re-parses that very file (`ET.parse(dest_path)` reads back exactly the
tree just written), rewrites the fills of all shape elements below the root,
and writes the tree back to `dest`. -/
def normalize_svg (tools : Tools) (src : Option String) (dest : Path)
    (theme : String) (st : BuildState) : BuildState × Option BuildError :=
  match src with
  | none => (logMsg st ("Warning: Source icon not found: " ++ pathStr dest), none)
  | some content =>
    match tools.inkscape content with
    | .error code => (st, some (.toolFailed code))
    | .ok parsed =>
      let st := writeFile st dest (.svg parsed)
      let newTree := applyFillShapes (fillColor theme) parsed
      (writeFile st dest (.svg newTree), none)

/-- The list of PNG sizes (build.py line 70 and line 171). -/
def sizes : List Nat := [16, 22, 24, 32, 48, 64, 96, 128, 256]

/-- The `f"{size}x{size}"` directory name. -/
def sizeDirName (size : Nat) : String := toString size ++ "x" ++ toString size

/-- One iteration of the loop of `rasterize_png` (build.py lines 71-86):
`dest_png = dest_dir / f"{size}x{size}" / f"{source_svg.stem}.png"`, then
`rsvg-convert -w size -h size source_svg -o dest_png` (which reads the file
at `sourceSvg` and fails if it is missing or not an SVG), then
`optipng -o7 -quiet dest_png` in place (it reads `dest_png`, which
rsvg-convert just wrote). -/
def rasterizeOne (tools : Tools) (sourceSvg : Path) (stem : String)
    (destDir : Path) (size : Nat) (st : BuildState) :
    BuildState × Option BuildError :=
  let dest_png : Path := destDir ++ [sizeDirName size, stem ++ ".png"]
  match st.fs sourceSvg with
  | some (.svg tree) =>
    match tools.rsvgConvert size tree with
    | .error code => (st, some (.toolFailed code))
    | .ok bytes =>
      let st := writeFile st dest_png (.png bytes)
      match tools.optipng bytes with
      | .error code => (st, some (.toolFailed code))
      | .ok optimized => (writeFile st dest_png (.png optimized), none)
  | _ => (st, some (.toolFailed 1))

/-- The size loop of `rasterize_png(source_svg, dest_dir)`: each size in
order, stopping at the first uncaught `CalledProcessError`.  `stem` is
`source_svg.stem`. -/
def rasterizeSizes (tools : Tools) (sourceSvg : Path) (stem : String)
    (destDir : Path) : List Nat → BuildState → BuildState × Option BuildError
  | [], st => (st, none)
  | s :: rest, st =>
    match rasterizeOne tools sourceSvg stem destDir s st with
    | (st', none) => rasterizeSizes tools sourceSvg stem destDir rest st'
    | (st', some e) => (st', some e)

/-- `rasterize_png(source_svg, dest_dir)` (build.py lines 66-86). -/
def rasterize_png (tools : Tools) (sourceSvg : Path) (stem : String)
    (destDir : Path) (st : BuildState) : BuildState × Option BuildError :=
  rasterizeSizes tools sourceSvg stem destDir sizes st

/-- Python `str.capitalize()`: first character uppercased, the rest
lowercased. -/
def capitalize (s : String) : String :=
  match s.toList with
  | [] => ""
  | c :: rest => String.mk (c.toUpper :: rest.map Char.toLower)

/-- Lexicographic comparison of character lists by code point — the order
Python compares strings with. -/
def charListLe : List Char → List Char → Bool
  | [], _ => true
  | _ :: _, [] => false
  | a :: as, b :: bs =>
    if a.toNat < b.toNat then true
    else if b.toNat < a.toNat then false
    else charListLe as bs

/-- `a <= b` on strings, by code points. -/
def strLe (a b : String) : Bool := charListLe a.toList b.toList

/-- Insert a string into an ascending list, keeping it ascending. -/
def insertSorted (x : String) : List String → List String
  | [] => [x]
  | y :: ys => if strLe x y then x :: y :: ys else y :: insertSorted x ys

/-- Python `sorted(...)` on strings: ascending insertion sort. -/
def sortStrings (l : List String) : List String := l.foldr insertSorted []

/-- `generate_index_theme(theme_dir, dir_entries, theme)` (build.py lines
88-102): writes `theme_dir/index.theme` with a fixed key=value body whose
`Directories=` line is `','.join(sorted(list(dir_entries)))`. -/
def generate_index_theme (theme_dir : Path) (dir_entries : List String)
    (theme : String) (st : BuildState) : BuildState :=
  let theme_name := "Material 3 (Plasma " ++ capitalize theme ++ ")"
  let content :=
    "[Icon Theme]\n" ++
    "Name=" ++ theme_name ++ "\n" ++
    "Comment=Material You symbols adapted for KDE Plasma.\n" ++
    "Inherits=breeze\n" ++
    "Example=folder\n" ++
    "Directories=" ++ String.intercalate "," (sortStrings dir_entries) ++ "\n"
  writeFile st (theme_dir ++ ["index.theme"]) (.text content)

/-- The `for icon_dir in source_icon_dirs` loop with `break` (build.py lines
142-147): the `materialicons/24px.svg` content of the first matched directory
that has one. -/
def findDefaultSvg : List IconDir → Option String
  | [] => none
  | d :: rest =>
    match d.default24 with
    | some svg => some svg
    | none => findDefaultSvg rest

/-- The body of the `for row in reader` loop of `main` (build.py lines
131-172).  A row with a number of fields other than three makes the
tuple unpacking `kde_name, material_id, context = row` raise an uncaught
`ValueError` (`BuildError.badRow`). -/
def processRow (tools : Tools) (repo : MaterialRepo) (theme : String)
    (theme_dir normalized_dir : Path) (st : BuildState) (row : List String) :
    BuildState × Option BuildError :=
  match row with
  | [kde_name, material_id, context] =>
    let st := logMsg st
      ("Processing: " ++ kde_name ++ " (" ++ material_id ++ ") in " ++ context)
    let source_icon_dirs := repo.dirs.filter (fun d => d.name = material_id)
    if source_icon_dirs.isEmpty then
      (logMsg st ("Warning: Material icon directory " ++ material_id ++
        " not found."), none)
    else
      match findDefaultSvg source_icon_dirs with
      | none =>
        (logMsg st ("Warning: Default SVG not found for icon " ++ material_id ++
          " in any of the found directories."), none)
      | some sourceContent =>
        let normalized_svg : Path := normalized_dir ++ [material_id ++ ".svg"]
        match normalize_svg tools (some sourceContent) normalized_svg theme st with
        | (st, some e) => (st, some e)
        | (st, none) =>
          let theme_svg : Path := theme_dir ++ ["scalable", context, kde_name ++ ".svg"]
          match st.fs normalized_svg with
          | some data =>
            let st := writeFile st theme_svg data
            let st := addDirEntry st ("scalable/" ++ context)
            match rasterize_png tools theme_svg kde_name theme_dir st with
            | (st, some e) => (st, some e)
            | (st, none) =>
              (sizes.foldl (fun s n => addDirEntry s (sizeDirName n ++ "/" ++ context))
                st, none)
          | none => (st, none)
  | _ => (st, some .badRow)

/-- The `for row in reader` loop: rows in order, stopping at the first
uncaught exception. -/
def buildRows (tools : Tools) (repo : MaterialRepo) (theme : String)
    (theme_dir normalized_dir : Path) :
    List (List String) → BuildState → BuildState × Option BuildError
  | [], st => (st, none)
  | row :: rest, st =>
    match processRow tools repo theme theme_dir normalized_dir st row with
    | (st', none) => buildRows tools repo theme theme_dir normalized_dir rest st'
    | (st', some e) => (st', some e)

/-- The initial state of a run over an existing output filesystem: empty
`dir_entries` set, nothing printed, nothing yet written. -/
def initState (fs0 : FS) : BuildState :=
  { fs := fs0, dirEntries := [], log := [], written := [] }

/-- `main()` (build.py lines 104-178), after its early checks that
`tools/mapping.csv` and the material source directory exist: `rows` is the
parsed content of `tools/mapping.csv`, `repo` abstracts the checked-out
material icon repository at `args.material_path`, and `fs0` is whatever
output tree already exists.  The theme root is
`material3-plasma-{args.theme}` and normalized SVGs go to `src/normalized`.
On an uncaught exception the partial state is left as is and `index.theme`
is never written. -/
def main (tools : Tools) (repo : MaterialRepo) (rows : List (List String))
    (args : Args) (fs0 : FS) : BuildState × Option BuildError :=
  let theme_dir : Path := ["material3-plasma-" ++ args.theme]
  let normalized_dir : Path := ["src", "normalized"]
  match buildRows tools repo args.theme theme_dir normalized_dir rows (initState fs0) with
  | (st, none) =>
    let st := generate_index_theme theme_dir st.dirEntries args.theme st
    (logMsg st ("Build complete for " ++ args.theme ++ " theme."), none)
  | (st, some e) => (st, some e)

/-! ## Concrete instantiations used by witnesses and counterexamples -/

/-- A plain SVG as Inkscape could write it: an `svg` root with one `path`
child whose fill is `none`. -/
def sampleParsed : Xml :=
  .elem (qualTag "svg") [("width", "24"), ("height", "24")]
    [Xml.elem (qualTag "path") [("fill", "none"), ("d", "M0 0h24v24H0z")] []]

/-- Deterministic always-succeeding external tools. -/
def stubTools : Tools where
  inkscape := fun _ => .ok sampleParsed
  rsvgConvert := fun size _ => .ok ("PNG" ++ toString size)
  optipng := fun bytes => .ok (bytes ++ "-opt")

/-- Tools whose Inkscape invocation exits with status 2. -/
def stubFailTools : Tools where
  inkscape := fun _ => .error 2
  rsvgConvert := fun size _ => .ok ("PNG" ++ toString size)
  optipng := fun bytes => .ok bytes

/-- A material repository holding one icon directory `folder` with a default
24px SVG. -/
def stubRepo : MaterialRepo := ⟨[⟨"folder", some "folder-24px-src"⟩]⟩

/-- A repository where the directory `folder` exists but has no
`materialicons/24px.svg`. -/
def stubRepoNoSvg : MaterialRepo := ⟨[⟨"folder", none⟩]⟩

/-- Default arguments: light theme. -/
def argsLight : Args := ⟨false, "material-design-icons", "light"⟩

/-- The empty output filesystem. -/
def emptyFS : FS := fun _ => none

/-- One full run over the single mapping row `("folder", "folder",
"places")` (the example row of the specification) with valid source SVG. -/
def sampleRun : BuildState × Option BuildError :=
  main stubTools stubRepo [["folder", "folder", "places"]] argsLight emptyFS

/-! ## Claim theorems -/

/-- C1: the claim says every PNG lands under the row's context subdirectory
of its size directory (`<size>x<size>/<context>/<kde_name>.png`).  The code
does not do that: for the row `("folder", "folder", "places")` with a valid
source, the run succeeds and produces the scalable SVG under the context as
claimed, but `rasterize_png(theme_svg, theme_dir)` writes every PNG directly
to `<size>x<size>/folder.png`, and no `<size>x<size>/places/folder.png`
exists — even though `main` registers `<size>x<size>/places` in
`dir_entries`, so the code contradicts its own directory bookkeeping. -/
theorem png_outputs_lack_context_subdir :
    sampleRun.2 = none ∧
    (sampleRun.1.fs ["material3-plasma-light", "scalable", "places", "folder.svg"]).isSome
      = true ∧
    (∀ s ∈ sizes,
      (sampleRun.1.fs ["material3-plasma-light", sizeDirName s, "folder.png"]).isSome
        = true) ∧
    (∀ s ∈ sizes,
      sampleRun.1.fs ["material3-plasma-light", sizeDirName s, "places", "folder.png"]
        = none) ∧
    (∀ s ∈ sizes, (sizeDirName s ++ "/places") ∈ sampleRun.1.dirEntries) := by
  decide

/-- C2: the claim says `Directories=` is exactly the sorted deduplicated
union of the populated output subdirectories.  On the concrete run the
`Directories=` field lists `16x16/places` (among others), yet no file of the
run was written under `material3-plasma-light/16x16/places`; conversely the
directory `material3-plasma-light/16x16` did receive an output file but its
entry `16x16` is not listed. -/
theorem index_theme_lists_unpopulated_dirs :
    sampleRun.2 = none ∧
    sampleRun.1.fs ["material3-plasma-light", "index.theme"] =
      some (.text ("[Icon Theme]\nName=Material 3 (Plasma Light)\n" ++
        "Comment=Material You symbols adapted for KDE Plasma.\n" ++
        "Inherits=breeze\nExample=folder\n" ++
        "Directories=128x128/places,16x16/places,22x22/places,24x24/places," ++
        "256x256/places,32x32/places,48x48/places,64x64/places,96x96/places," ++
        "scalable/places\n")) ∧
    sampleRun.1.written.all
      (fun p => !(List.isPrefixOf ["material3-plasma-light", "16x16", "places"] p))
      = true ∧
    (∃ p ∈ sampleRun.1.written, List.isPrefixOf ["material3-plasma-light", "16x16"] p) ∧
    "16x16" ∉ sampleRun.1.dirEntries := by
  decide

/-- C3: the claim says the row `("folder", "folder", "places")` yields
`scalable/places/folder.svg` and `16x16/places/folder.png` through
`256x256/places/folder.png` under the theme root.  The scalable SVG is
produced as claimed (under root `material3-plasma-light`), but the claimed
PNG paths do not exist: the PNGs are written to `<size>x<size>/folder.png`
without the `places` component. -/
theorem folder_row_png_misplaced :
    sampleRun.2 = none ∧
    (sampleRun.1.fs ["material3-plasma-light", "scalable", "places", "folder.svg"]).isSome
      = true ∧
    sampleRun.1.fs ["material3-plasma-light", "16x16", "places", "folder.png"] = none ∧
    sampleRun.1.fs ["material3-plasma-light", "256x256", "places", "folder.png"] = none ∧
    (sampleRun.1.fs ["material3-plasma-light", "16x16", "folder.png"]).isSome = true ∧
    (sampleRun.1.fs ["material3-plasma-light", "256x256", "folder.png"]).isSome = true := by
  decide

/-- C7: the `--ci` flag is parsed but never read: two runs over identical
inputs that differ only in the flag produce identical results (output tree,
log, directory entries, and error status). -/
theorem ci_flag_unused (tools : Tools) (repo : MaterialRepo)
    (rows : List (List String)) (mp θ : String) (f : FS) (b₁ b₂ : Bool) :
    main tools repo rows ⟨b₁, mp, θ⟩ f = main tools repo rows ⟨b₂, mp, θ⟩ f := rfl

/-- C8 (counterexample): the claim says fills are rewritten "either to a
fixed theme color or to a symbolic current-color token, depending on the
build variant".  No build variant produces a current-color token: for a
concrete source tree both the light and the dark variant rewrite the shape
fill to a hardcoded hex color (`#232629` resp. `#eff0f1`), never to
`currentColor`. -/
theorem no_currentColor_token :
    applyFillShapes (fillColor "light") sampleParsed =
      Xml.elem (qualTag "svg") [("width", "24"), ("height", "24")]
        [Xml.elem (qualTag "path") [("fill", "#232629"), ("d", "M0 0h24v24H0z")] []] ∧
    applyFillShapes (fillColor "dark") sampleParsed =
      Xml.elem (qualTag "svg") [("width", "24"), ("height", "24")]
        [Xml.elem (qualTag "path") [("fill", "#eff0f1"), ("d", "M0 0h24v24H0z")] []] ∧
    fillColor "light" = "#232629" ∧
    fillColor "dark" = "#eff0f1" ∧
    fillColor "light" ≠ "currentColor" ∧
    fillColor "dark" ≠ "currentColor" := by
  decide

/-! ## Fill-rewrite lemmas -/

theorem lookupAttr_setAttr (a : List (String × String)) (k v : String) :
    lookupAttr (setAttr a k v) k = some v := by
  induction a with
  | nil => simp [setAttr, lookupAttr]
  | cons p rest ih =>
    obtain ⟨k', v'⟩ := p
    by_cases h : k' = k
    · simp [setAttr, lookupAttr, h]
    · simp [setAttr, lookupAttr, h, ih]

mutual

theorem setFillAll_fill (c : String) : (x : Xml) →
    ∀ n ∈ xmlNodes (setFillAll c x), Xml.tag n ∈ shapeTags →
      getAttr n "fill" = some c
  | .elem t a ch => by
    intro n hn htag
    rw [setFillAll, xmlNodes] at hn
    rcases List.mem_cons.mp hn with h | h
    · subst h
      simp only [Xml.tag] at htag
      simp only [getAttr, Xml.attrs]
      rw [if_pos htag]
      exact lookupAttr_setAttr a "fill" c
    · exact setFillList_fill c ch n h htag

theorem setFillList_fill (c : String) : (l : List Xml) →
    ∀ n ∈ xmlNodesList (setFillList c l), Xml.tag n ∈ shapeTags →
      getAttr n "fill" = some c
  | [] => by
    intro n hn
    rw [setFillList, xmlNodesList] at hn
    exact absurd hn (List.not_mem_nil n)
  | x :: xs => by
    intro n hn htag
    rw [setFillList, xmlNodesList] at hn
    rcases List.mem_append.mp hn with h | h
    · exact setFillAll_fill c x n h htag
    · exact setFillList_fill c xs n h htag

end

/-- C9: after a successful `normalize_svg`, every shape element (`path`,
`rect`, `circle`, `ellipse`, `polygon`, `polyline`, `line` in the SVG
namespace) anywhere in the written tree carries `fill="#232629"` when the
theme is `light` and `fill="#eff0f1"` when it is `dark`, whatever fill (a
different color, `none`, or no fill at all) it had before.  The hypothesis
that the root's tag is not itself a shape tag holds of every SVG document
(its root is an `svg` element); `findall(".//…")` only visits proper
descendants of the root. -/
theorem shape_fills_forced_to_theme_color (theme : String) (x : Xml)
    (hroot : Xml.tag x ∉ shapeTags) :
    ∀ n ∈ xmlNodes (applyFillShapes (fillColor theme) x),
      Xml.tag n ∈ shapeTags →
        (theme = "light" → getAttr n "fill" = some "#232629") ∧
        (theme = "dark" → getAttr n "fill" = some "#eff0f1") := by
  intro n hn htag
  cases x with
  | elem t a ch =>
    rw [applyFillShapes, xmlNodes] at hn
    rcases List.mem_cons.mp hn with h | h
    · subst h; exact absurd htag hroot
    · have hfill := setFillList_fill (fillColor theme) ch n h htag
      constructor
      · intro hl; subst hl; rw [hfill]; decide
      · intro hd; subst hd; rw [hfill]; decide

/-- Closed instantiation of `shape_fills_forced_to_theme_color` at the
concrete tree `sampleParsed` with the light theme, evaluated at its `path`
child. -/
theorem shape_fills_forced_to_theme_color_witness :
    Xml.tag sampleParsed ∉ shapeTags ∧
    getAttr (Xml.elem (qualTag "path") [("fill", "#232629"), ("d", "M0 0h24v24H0z")] [])
      "fill" = some "#232629" :=
  ⟨by decide,
    (shape_fills_forced_to_theme_color "light" sampleParsed (by decide)
      (Xml.elem (qualTag "path") [("fill", "#232629"), ("d", "M0 0h24v24H0z")] [])
      (by decide) (by decide)).1 rfl⟩

/-- C8 (amended): for every processed source SVG and every build variant,
the normalizer rewrites the fills of the shape elements below the root to
the fixed theme color selected by `--theme` — `#232629` for `light`,
`#eff0f1` otherwise — so exactly two hardcoded color values occur across the
variants, and the symbolic `currentColor` token is never used. -/
theorem fills_set_to_fixed_theme_color (theme : String) (x : Xml) :
    (∀ n ∈ xmlNodesList (Xml.children (applyFillShapes (fillColor theme) x)),
      Xml.tag n ∈ shapeTags → getAttr n "fill" = some (fillColor theme)) ∧
    (fillColor theme = "#232629" ∨ fillColor theme = "#eff0f1") ∧
    fillColor theme ≠ "currentColor" := by
  refine ⟨?_, ?_, ?_⟩
  · cases x with
    | elem t a ch =>
      rw [applyFillShapes]
      simp only [Xml.children]
      exact setFillList_fill (fillColor theme) ch
  · by_cases h : theme = "light"
    · left; simp [fillColor, h]
    · right; simp [fillColor, h]
  · by_cases h : theme = "light"
    · simp only [fillColor, if_pos h]; decide
    · simp only [fillColor, if_neg h]; decide

/-- Closed instantiation of `fills_set_to_fixed_theme_color` at the dark
theme on the concrete tree `sampleParsed`, evaluated at its `path` child. -/
theorem fills_set_to_fixed_theme_color_witness :
    getAttr (Xml.elem (qualTag "path") [("fill", "#eff0f1"), ("d", "M0 0h24v24H0z")] [])
      "fill" = some (fillColor "dark") ∧
    fillColor "dark" ≠ "currentColor" :=
  ⟨(fills_set_to_fixed_theme_color "dark" sampleParsed).1
      (Xml.elem (qualTag "path") [("fill", "#eff0f1"), ("d", "M0 0h24v24H0z")] [])
      (by decide) (by decide),
    (fills_set_to_fixed_theme_color "dark" sampleParsed).2.2⟩

/-! ## Loop decomposition and write-locality lemmas -/

theorem buildRows_append (tools : Tools) (repo : MaterialRepo) (theme : String)
    (td nd : Path) (l₁ l₂ : List (List String)) (st : BuildState) :
    buildRows tools repo theme td nd (l₁ ++ l₂) st =
      match buildRows tools repo theme td nd l₁ st with
      | (st', none) => buildRows tools repo theme td nd l₂ st'
      | (st', some e) => (st', some e) := by
  induction l₁ generalizing st with
  | nil => rfl
  | cons r rest ih =>
    rw [List.cons_append]
    simp only [buildRows]
    cases hp : processRow tools repo theme td nd st r with
    | mk st' e =>
      cases e with
      | none => exact ih st'
      | some err => rfl

theorem processRow_badRow (tools : Tools) (repo : MaterialRepo) (theme : String)
    (td nd : Path) (st : BuildState) (r : List String) (h : r.length ≠ 3) :
    processRow tools repo theme td nd st r = (st, some .badRow) :=
  match r with
  | [] => rfl
  | [_] => rfl
  | [_, _] => rfl
  | [_, _, _] => absurd rfl h
  | _ :: _ :: _ :: _ :: _ => rfl

theorem writeFS_ne {p q : Path} (fs : FS) (v : FileData) (h : p ≠ q) :
    writeFS fs q v p = fs p := by
  simp [writeFS, h]

theorem path_ne_of_length {p q : Path} (h : p.length ≠ q.length) : p ≠ q :=
  fun hc => h (by rw [hc])

theorem addDirEntry_fs (st : BuildState) (e : String) :
    (addDirEntry st e).fs = st.fs := by
  by_cases h : e ∈ st.dirEntries <;> simp [addDirEntry, h]

theorem foldl_addDirEntry_fs (g : Nat → String) (l : List Nat) (st : BuildState) :
    (List.foldl (fun s n => addDirEntry s (g n)) st l).fs = st.fs := by
  induction l generalizing st with
  | nil => rfl
  | cons n rest ih => rw [List.foldl_cons, ih, addDirEntry_fs]

theorem normalize_svg_fs_pres (tools : Tools) (src : Option String) (dest : Path)
    (theme : String) (st : BuildState) {p : Path} (h : p ≠ dest) :
    ((normalize_svg tools src dest theme st).1).fs p = st.fs p := by
  cases src with
  | none => rfl
  | some content =>
    cases hik : tools.inkscape content with
    | error code => simp [normalize_svg, hik]
    | ok parsed => simp [normalize_svg, hik, writeFile, writeFS_ne _ _ h]

theorem rasterizeOne_fs_pres (tools : Tools) (srcP : Path) (stem : String)
    (dd : Path) (size : Nat) (st : BuildState) {p : Path}
    (h : p ≠ dd ++ [sizeDirName size, stem ++ ".png"]) :
    ((rasterizeOne tools srcP stem dd size st).1).fs p = st.fs p := by
  cases hs : st.fs srcP with
  | none => simp [rasterizeOne, hs]
  | some d =>
    cases d with
    | svg tree =>
      cases hr : tools.rsvgConvert size tree with
      | error code => simp [rasterizeOne, hs, hr]
      | ok bytes =>
        cases ho : tools.optipng bytes with
        | error code => simp [rasterizeOne, hs, hr, ho, writeFile, writeFS_ne _ _ h]
        | ok optimized => simp [rasterizeOne, hs, hr, ho, writeFile, writeFS_ne _ _ h]
    | png bytes => simp [rasterizeOne, hs]
    | text s => simp [rasterizeOne, hs]

theorem rasterizeSizes_fs_pres (tools : Tools) (srcP : Path) (stem : String)
    (dd : Path) : (l : List Nat) → (st : BuildState) → {p : Path} →
    (∀ s ∈ l, p ≠ dd ++ [sizeDirName s, stem ++ ".png"]) →
    ((rasterizeSizes tools srcP stem dd l st).1).fs p = st.fs p
  | [], st, p, _ => rfl
  | s :: rest, st, p, h => by
    simp only [rasterizeSizes]
    cases hr : rasterizeOne tools srcP stem dd s st with
    | mk st' e =>
      have h1 : st'.fs p = st.fs p := by
        have := rasterizeOne_fs_pres tools srcP stem dd s st
          (h s (List.mem_cons_self s rest))
        rwa [hr] at this
      cases e with
      | none =>
        rw [rasterizeSizes_fs_pres tools srcP stem dd rest st'
          (fun s' hs' => h s' (List.mem_cons_of_mem s hs')), h1]
      | some err => exact h1

set_option maxHeartbeats 1000000 in
theorem processRow_fs_pres (tools : Tools) (repo : MaterialRepo) (theme : String)
    (td nd : Path) (st : BuildState) (row : List String) {p : Path}
    (h1 : p.length ≠ nd.length + 1) (h2 : p.length ≠ td.length + 3)
    (h3 : p.length ≠ td.length + 2) :
    ((processRow tools repo theme td nd st row).1).fs p = st.fs p := by
  match row with
  | [] => rfl
  | [_] => rfl
  | [_, _] => rfl
  | _ :: _ :: _ :: _ :: _ => rfl
  | [kde_name, material_id, context] =>
    by_cases hE : (repo.dirs.filter fun d => d.name = material_id).isEmpty
    · simp [processRow, hE, logMsg]
    · cases hF : findDefaultSvg (repo.dirs.filter fun d => d.name = material_id) with
      | none => simp [processRow, hE, hF, logMsg]
      | some sourceContent =>
        have hnd : p ≠ nd ++ [material_id ++ ".svg"] :=
          path_ne_of_length (by simpa using h1)
        cases hnm : normalize_svg tools (some sourceContent)
            (nd ++ [material_id ++ ".svg"]) theme
            (logMsg st ("Processing: " ++ kde_name ++ " (" ++ material_id ++ ") in "
              ++ context)) with
        | mk st' e =>
          have hfs' : st'.fs p = st.fs p := by
            have := normalize_svg_fs_pres tools (some sourceContent)
              (nd ++ [material_id ++ ".svg"]) theme
              (logMsg st ("Processing: " ++ kde_name ++ " (" ++ material_id ++ ") in "
                ++ context)) hnd
            rw [hnm] at this
            exact this
          cases e with
          | some err => simp only [processRow, hE, hF, hnm]; exact hfs'
          | none =>
            cases hx : st'.fs (nd ++ [material_id ++ ".svg"]) with
            | none => simp only [processRow, hE, hF, hnm, hx]; exact hfs'
            | some data =>
              have hts : p ≠ td ++ ["scalable", context, kde_name ++ ".svg"] :=
                path_ne_of_length (by simpa using h2)
              have hras : ∀ s ∈ sizes, p ≠ td ++ [sizeDirName s, kde_name ++ ".png"] :=
                fun s _ => path_ne_of_length (by simpa using h3)
              cases hrr : rasterize_png tools (td ++ ["scalable", context, kde_name ++ ".svg"])
                  kde_name td
                  (addDirEntry (writeFile st' (td ++ ["scalable", context, kde_name ++ ".svg"]) data)
                    ("scalable/" ++ context)) with
              | mk st'' e' =>
                have hfs'' : st''.fs p = st.fs p := by
                  have := rasterizeSizes_fs_pres tools
                    (td ++ ["scalable", context, kde_name ++ ".svg"]) kde_name td sizes
                    (addDirEntry (writeFile st' (td ++ ["scalable", context, kde_name ++ ".svg"]) data)
                      ("scalable/" ++ context)) hras
                  rw [show rasterizeSizes tools (td ++ ["scalable", context, kde_name ++ ".svg"])
                        kde_name td sizes
                        (addDirEntry (writeFile st' (td ++ ["scalable", context, kde_name ++ ".svg"]) data)
                          ("scalable/" ++ context)) = (st'', e') from hrr] at this
                  rw [addDirEntry_fs] at this
                  simp only [writeFile] at this
                  rw [writeFS_ne _ _ hts] at this
                  rw [this, hfs']
                cases e' with
                | none =>
                  simp only [processRow, hE, hF, hnm, hx]
                  rw [hrr]
                  simp only [Bool.false_eq_true, if_false, foldl_addDirEntry_fs]
                  exact hfs''
                | some err =>
                  simp only [processRow, hE, hF, hnm, hx]
                  rw [hrr]
                  simp only [Bool.false_eq_true, if_false]
                  exact hfs''

theorem buildRows_fs_pres (tools : Tools) (repo : MaterialRepo) (theme : String)
    (td nd : Path) (rows : List (List String)) (st : BuildState) {p : Path}
    (h1 : p.length ≠ nd.length + 1) (h2 : p.length ≠ td.length + 3)
    (h3 : p.length ≠ td.length + 2) :
    ((buildRows tools repo theme td nd rows st).1).fs p = st.fs p := by
  induction rows generalizing st with
  | nil => rfl
  | cons r rest ih =>
    simp only [buildRows]
    cases hp : processRow tools repo theme td nd st r with
    | mk st' e =>
      have hr : st'.fs p = st.fs p := by
        have := processRow_fs_pres tools repo theme td nd st r h1 h2 h3
        rwa [hp] at this
      cases e with
      | none => rw [ih st', hr]
      | some err => exact hr

/-- C4: a mapping row whose source SVG is absent — no directory named after
the material id (first warning), or no `materialicons/24px.svg` in any
matched directory (second warning) — makes the loop print the processing
line and a warning, produce no error, leave the filesystem, the written
list and the directory entries untouched, and continue with the remaining
rows.  The hypothesis covers both cases: `findDefaultSvg` of the filtered
directory list is `none` exactly when the list is empty or none of its
members has a default SVG. -/
theorem missing_source_row_skipped (tools : Tools) (repo : MaterialRepo)
    (theme : String) (td nd : Path) (st : BuildState) (k m c : String)
    (rest : List (List String))
    (h : findDefaultSvg (repo.dirs.filter fun d => d.name = m) = none) :
    ∃ st', processRow tools repo theme td nd st [k, m, c] = (st', none) ∧
      st'.fs = st.fs ∧ st'.written = st.written ∧ st'.dirEntries = st.dirEntries ∧
      (∃ w, st'.log = st.log ++ ["Processing: " ++ k ++ " (" ++ m ++ ") in " ++ c, w]) ∧
      buildRows tools repo theme td nd ([k, m, c] :: rest) st =
        buildRows tools repo theme td nd rest st' := by
  by_cases hE : (repo.dirs.filter fun d => d.name = m).isEmpty
  · have hpr : processRow tools repo theme td nd st [k, m, c] =
        (logMsg (logMsg st ("Processing: " ++ k ++ " (" ++ m ++ ") in " ++ c))
          ("Warning: Material icon directory " ++ m ++ " not found."), none) := by
      simp [processRow, hE]
    refine ⟨_, hpr, rfl, rfl, rfl,
      ⟨"Warning: Material icon directory " ++ m ++ " not found.", by simp [logMsg]⟩, ?_⟩
    simp only [buildRows, hpr]
  · have hpr : processRow tools repo theme td nd st [k, m, c] =
        (logMsg (logMsg st ("Processing: " ++ k ++ " (" ++ m ++ ") in " ++ c))
          ("Warning: Default SVG not found for icon " ++ m ++
            " in any of the found directories."), none) := by
      simp [processRow, hE, h]
    refine ⟨_, hpr, rfl, rfl, rfl,
      ⟨"Warning: Default SVG not found for icon " ++ m ++
        " in any of the found directories.", by simp [logMsg]⟩, ?_⟩
    simp only [buildRows, hpr]

/-- Closed instantiation of `missing_source_row_skipped`: the repository has
a directory `folder` without a default 24px SVG. -/
theorem missing_source_row_skipped_witness :
    findDefaultSvg (stubRepoNoSvg.dirs.filter fun d => d.name = "folder") = none ∧
    (∃ st', processRow stubTools stubRepoNoSvg "light" ["material3-plasma-light"]
        ["src", "normalized"] (initState emptyFS) ["folder", "folder", "places"] =
          (st', none) ∧
      st'.fs = (initState emptyFS).fs ∧
      st'.written = (initState emptyFS).written ∧
      st'.dirEntries = (initState emptyFS).dirEntries ∧
      (∃ w, st'.log = (initState emptyFS).log ++
        ["Processing: " ++ "folder" ++ " (" ++ "folder" ++ ") in " ++ "places", w]) ∧
      buildRows stubTools stubRepoNoSvg "light" ["material3-plasma-light"]
          ["src", "normalized"] (["folder", "folder", "places"] :: []) (initState emptyFS) =
        buildRows stubTools stubRepoNoSvg "light" ["material3-plasma-light"]
          ["src", "normalized"] [] st') :=
  ⟨by decide,
    missing_source_row_skipped stubTools stubRepoNoSvg "light" ["material3-plasma-light"]
      ["src", "normalized"] (initState emptyFS) "folder" "folder" "places" [] (by decide)⟩

/-- C5: once a row's processing aborts with an uncaught
`CalledProcessError` (`BuildError.toolFailed`, produced exactly at the three
`subprocess.run(..., check=True)` sites: the Inkscape normalizer, the
rsvg-convert rasterizer and the optipng optimizer), the whole run terminates
with that error: no later mapping row is processed, there is no retry or
catch, the state is exactly the state at the failure point, and
`generate_index_theme` is never reached (no pre-existing `index.theme`, none
written). -/
theorem tool_failure_aborts_run (tools : Tools) (repo : MaterialRepo)
    (rows₁ rows₂ : List (List String)) (row : List String) (args : Args)
    (fs0 : FS) (st₁ st₂ : BuildState) (code : Nat)
    (h₁ : buildRows tools repo args.theme ["material3-plasma-" ++ args.theme]
      ["src", "normalized"] rows₁ (initState fs0) = (st₁, none))
    (h₂ : processRow tools repo args.theme ["material3-plasma-" ++ args.theme]
      ["src", "normalized"] st₁ row = (st₂, some (.toolFailed code))) :
    main tools repo (rows₁ ++ row :: rows₂) args fs0 = (st₂, some (.toolFailed code)) ∧
    (fs0 ["material3-plasma-" ++ args.theme, "index.theme"] = none →
      st₂.fs ["material3-plasma-" ++ args.theme, "index.theme"] = none) := by
  constructor
  · simp only [main]
    rw [buildRows_append, h₁]
    simp only [buildRows]
    rw [h₂]
  · intro h0
    have hb := buildRows_fs_pres tools repo args.theme
      ["material3-plasma-" ++ args.theme] ["src", "normalized"] rows₁ (initState fs0)
      (p := ["material3-plasma-" ++ args.theme, "index.theme"])
      (by simp) (by simp) (by simp)
    rw [h₁] at hb
    have hp := processRow_fs_pres tools repo args.theme
      ["material3-plasma-" ++ args.theme] ["src", "normalized"] st₁ row
      (p := ["material3-plasma-" ++ args.theme, "index.theme"])
      (by simp) (by simp) (by simp)
    rw [h₂] at hp
    rw [hp, hb]
    exact h0

/-- Closed instantiation of `tool_failure_aborts_run`: Inkscape exits with
status 2 on the first row; the run dies there and the second row is never
processed. -/
theorem tool_failure_aborts_run_witness :
    main stubFailTools stubRepo [["folder", "folder", "places"], ["other", "row", "x"]]
      argsLight emptyFS =
      ({ fs := emptyFS, dirEntries := [],
         log := ["Processing: folder (folder) in places"], written := [] },
        some (.toolFailed 2)) :=
  (tool_failure_aborts_run stubFailTools stubRepo [] [["other", "row", "x"]]
    ["folder", "folder", "places"] argsLight emptyFS (initState emptyFS)
    { fs := emptyFS, dirEntries := [],
      log := ["Processing: folder (folder) in places"], written := [] }
    2 rfl rfl).1

/-- C10: a CSV row with a number of fields other than three makes the tuple
unpacking raise an uncaught `ValueError` when the row is reached: the run
terminates with that error rather than warning and skipping, the rows before
it have been processed (the final state is exactly the state after them),
and `index.theme` is never written. -/
theorem malformed_row_aborts (tools : Tools) (repo : MaterialRepo)
    (rows₁ rows₂ : List (List String)) (r : List String) (args : Args)
    (fs0 : FS) (st₁ : BuildState)
    (h₁ : buildRows tools repo args.theme ["material3-plasma-" ++ args.theme]
      ["src", "normalized"] rows₁ (initState fs0) = (st₁, none))
    (h₂ : r.length ≠ 3) :
    main tools repo (rows₁ ++ r :: rows₂) args fs0 = (st₁, some .badRow) ∧
    (fs0 ["material3-plasma-" ++ args.theme, "index.theme"] = none →
      st₁.fs ["material3-plasma-" ++ args.theme, "index.theme"] = none) := by
  constructor
  · simp only [main]
    rw [buildRows_append, h₁]
    simp only [buildRows]
    rw [processRow_badRow tools repo args.theme ["material3-plasma-" ++ args.theme]
      ["src", "normalized"] st₁ r h₂]
  · intro h0
    have hb := buildRows_fs_pres tools repo args.theme
      ["material3-plasma-" ++ args.theme] ["src", "normalized"] rows₁ (initState fs0)
      (p := ["material3-plasma-" ++ args.theme, "index.theme"])
      (by simp) (by simp) (by simp)
    rw [h₁] at hb
    rw [hb]
    exact h0

/-- Closed instantiation of `malformed_row_aborts`: a two-field first row
crashes the run immediately. -/
theorem malformed_row_aborts_witness :
    main stubTools stubRepo [["only", "two"]] argsLight emptyFS =
      (initState emptyFS, some .badRow) ∧
    (emptyFS ["material3-plasma-light", "index.theme"] = none →
      (initState emptyFS).fs ["material3-plasma-light", "index.theme"] = none) :=
  malformed_row_aborts stubTools stubRepo [] [] ["only", "two"] argsLight emptyFS
    (initState emptyFS) rfl (by decide)

/-! ## Overlay machinery

A run reads the output filesystem only at paths it has itself written
earlier in the same run (the `normalized_svg.exists()` check after a
successful `normalize_svg`, and `rsvg-convert` reading the `theme_svg`
copied just before).  Hence the writes of a run — both the paths and the
contents — do not depend on the pre-existing output tree: a run over `f`
equals the run over the empty filesystem with its result overlaid on `f`.
Idempotence of the build follows. -/

/-- The filesystem `f` with the writes `d` applied over it. -/
def overlay (d f : FS) : FS := fun p => (d p).orElse (fun _ => f p)

/-- A state whose filesystem is overlaid on a base filesystem. -/
def overlayState (st : BuildState) (f : FS) : BuildState :=
  { st with fs := overlay st.fs f }

/-- Overlay applied to a (state, error) run result. -/
def overlayResult (r : BuildState × Option BuildError) (f : FS) :
    BuildState × Option BuildError := (overlayState r.1 f, r.2)

theorem overlay_empty (f : FS) : overlay (fun _ => none) f = f :=
  funext fun _ => rfl

theorem overlay_isSome {d : FS} {p : Path} (h : (d p).isSome) (f : FS) :
    overlay d f p = d p := by
  unfold overlay
  cases hd : d p with
  | some v => rfl
  | none => rw [hd] at h; simp at h

theorem writeFS_overlay (d f : FS) (p : Path) (v : FileData) :
    writeFS (overlay d f) p v = overlay (writeFS d p v) f := by
  funext q
  by_cases h : q = p <;> simp [writeFS, overlay, h, Option.orElse]

theorem overlay_overlay (d f : FS) : overlay d (overlay d f) = overlay d f := by
  funext p
  unfold overlay
  cases hd : d p <;> simp [Option.orElse]

theorem writeFS_self (fs : FS) (p : Path) (v : FileData) :
    writeFS fs p v p = some v := by
  simp [writeFS]

theorem writeFS_isSome_mono {fs : FS} {q : Path} (h : (fs q).isSome)
    (p : Path) (v : FileData) : ((writeFS fs p v) q).isSome := by
  by_cases hq : q = p <;> simp [writeFS, hq, h]

theorem writeFile_overlay (st : BuildState) (f : FS) (p : Path) (d : FileData) :
    writeFile (overlayState st f) p d = overlayState (writeFile st p d) f := by
  simp [writeFile, overlayState, writeFS_overlay]

theorem logMsg_overlay (st : BuildState) (f : FS) (m : String) :
    logMsg (overlayState st f) m = overlayState (logMsg st m) f := rfl

theorem addDirEntry_overlay (st : BuildState) (f : FS) (e : String) :
    addDirEntry (overlayState st f) e = overlayState (addDirEntry st e) f := by
  by_cases h : e ∈ st.dirEntries <;> simp [addDirEntry, overlayState, h]

theorem foldl_addDirEntry_overlay (g : Nat → String) (l : List Nat)
    (st : BuildState) (f : FS) :
    List.foldl (fun s n => addDirEntry s (g n)) (overlayState st f) l =
      overlayState (List.foldl (fun s n => addDirEntry s (g n)) st l) f := by
  induction l generalizing st with
  | nil => rfl
  | cons n rest ih => rw [List.foldl_cons, addDirEntry_overlay, ih, List.foldl_cons]

theorem normalize_svg_overlay (tools : Tools) (src : Option String) (dest : Path)
    (theme : String) (st : BuildState) (f : FS) :
    normalize_svg tools src dest theme (overlayState st f) =
      overlayResult (normalize_svg tools src dest theme st) f := by
  cases src with
  | none => rfl
  | some content =>
    cases hik : tools.inkscape content with
    | error code => simp [normalize_svg, hik, overlayResult]
    | ok parsed => simp [normalize_svg, hik, overlayResult, writeFile_overlay]

theorem normalize_svg_writes_dest (tools : Tools) (content : String) (dest : Path)
    (theme : String) (st st' : BuildState)
    (h : normalize_svg tools (some content) dest theme st = (st', none)) :
    (st'.fs dest).isSome := by
  cases hik : tools.inkscape content with
  | error code => simp [normalize_svg, hik] at h
  | ok parsed =>
    simp only [normalize_svg, hik] at h
    obtain ⟨h1, -⟩ := Prod.mk.injEq .. ▸ h
    rw [← h1]
    simp [writeFile, writeFS_self]

theorem rasterizeOne_fs_isSome (tools : Tools) (srcP : Path) (stem : String)
    (dd : Path) (size : Nat) (st : BuildState) {q : Path} (h : (st.fs q).isSome) :
    (((rasterizeOne tools srcP stem dd size st).1).fs q).isSome := by
  cases hs : st.fs srcP with
  | none => simpa [rasterizeOne, hs] using h
  | some d =>
    cases d with
    | svg tree =>
      cases hr : tools.rsvgConvert size tree with
      | error code => simpa [rasterizeOne, hs, hr] using h
      | ok bytes =>
        cases ho : tools.optipng bytes with
        | error code =>
          simp only [rasterizeOne, hs, hr, ho]
          exact writeFS_isSome_mono h _ _
        | ok optimized =>
          simp only [rasterizeOne, hs, hr, ho]
          exact writeFS_isSome_mono (writeFS_isSome_mono h _ _) _ _
    | png bytes => simpa [rasterizeOne, hs] using h
    | text s => simpa [rasterizeOne, hs] using h

theorem rasterizeOne_overlay (tools : Tools) (srcP : Path) (stem : String)
    (dd : Path) (size : Nat) (st : BuildState) (f : FS) (h : (st.fs srcP).isSome) :
    rasterizeOne tools srcP stem dd size (overlayState st f) =
      overlayResult (rasterizeOne tools srcP stem dd size st) f := by
  cases hs : st.fs srcP with
  | none => rw [hs] at h; simp at h
  | some d =>
    have hs' : (overlayState st f).fs srcP = some d := by
      show overlay st.fs f srcP = some d
      rw [overlay_isSome h f, hs]
    cases d with
    | svg tree =>
      cases hr : tools.rsvgConvert size tree with
      | error code => simp [rasterizeOne, hs, hs', hr, overlayResult]
      | ok bytes =>
        cases ho : tools.optipng bytes with
        | error code =>
          simp [rasterizeOne, hs, hs', hr, ho, overlayResult, writeFile_overlay]
        | ok optimized =>
          simp [rasterizeOne, hs, hs', hr, ho, overlayResult, writeFile_overlay]
    | png bytes => simp [rasterizeOne, hs, hs', overlayResult]
    | text s => simp [rasterizeOne, hs, hs', overlayResult]

theorem rasterizeSizes_overlay (tools : Tools) (srcP : Path) (stem : String)
    (dd : Path) : (l : List Nat) → (st : BuildState) → (f : FS) →
    (st.fs srcP).isSome →
    rasterizeSizes tools srcP stem dd l (overlayState st f) =
      overlayResult (rasterizeSizes tools srcP stem dd l st) f
  | [], _, _, _ => rfl
  | s :: rest, st, f, h => by
    simp only [rasterizeSizes]
    rw [rasterizeOne_overlay tools srcP stem dd s st f h]
    cases hr : rasterizeOne tools srcP stem dd s st with
    | mk st' e =>
      have h' : (st'.fs srcP).isSome := by
        have := rasterizeOne_fs_isSome tools srcP stem dd s st h
        rwa [hr] at this
      cases e with
      | none =>
        simp only [overlayResult]
        exact rasterizeSizes_overlay tools srcP stem dd rest st' f h'
      | some err => rfl

set_option maxHeartbeats 1000000 in
theorem processRow_overlay (tools : Tools) (repo : MaterialRepo) (theme : String)
    (td nd : Path) (st : BuildState) (row : List String) (f : FS) :
    processRow tools repo theme td nd (overlayState st f) row =
      overlayResult (processRow tools repo theme td nd st row) f := by
  match row with
  | [] => rfl
  | [_] => rfl
  | [_, _] => rfl
  | _ :: _ :: _ :: _ :: _ => rfl
  | [k, m, c] =>
    by_cases hE : (repo.dirs.filter fun d => d.name = m).isEmpty
    · simp only [processRow, hE, if_true]; rfl
    · cases hF : findDefaultSvg (repo.dirs.filter fun d => d.name = m) with
      | none =>
        simp only [processRow, hE, hF, Bool.false_eq_true, if_false]
        rfl
      | some content =>
        cases hnm : normalize_svg tools (some content) (nd ++ [m ++ ".svg"]) theme
            (logMsg st ("Processing: " ++ k ++ " (" ++ m ++ ") in " ++ c)) with
        | mk st' e =>
          have hnm' : normalize_svg tools (some content) (nd ++ [m ++ ".svg"]) theme
              (logMsg (overlayState st f)
                ("Processing: " ++ k ++ " (" ++ m ++ ") in " ++ c)) =
              (overlayState st' f, e) := by
            rw [logMsg_overlay, normalize_svg_overlay, hnm]
            rfl
          cases e with
          | some err =>
            simp only [processRow, hE, hF, hnm, hnm', Bool.false_eq_true, if_false]
            rfl
          | none =>
            have hsome : (st'.fs (nd ++ [m ++ ".svg"])).isSome :=
              normalize_svg_writes_dest tools content (nd ++ [m ++ ".svg"]) theme _ st' hnm
            cases hv : st'.fs (nd ++ [m ++ ".svg"]) with
            | none => rw [hv] at hsome; simp at hsome
            | some data =>
              have hv' : (overlayState st' f).fs (nd ++ [m ++ ".svg"]) = some data := by
                show overlay st'.fs f (nd ++ [m ++ ".svg"]) = some data
                rw [overlay_isSome hsome f, hv]
              have hts : ((addDirEntry
                  (writeFile st' (td ++ ["scalable", c, k ++ ".svg"]) data)
                  ("scalable/" ++ c)).fs (td ++ ["scalable", c, k ++ ".svg"])).isSome := by
                rw [addDirEntry_fs]
                simp [writeFile, writeFS_self]
              have hras := rasterizeSizes_overlay tools
                (td ++ ["scalable", c, k ++ ".svg"]) k td sizes
                (addDirEntry (writeFile st' (td ++ ["scalable", c, k ++ ".svg"]) data)
                  ("scalable/" ++ c)) f hts
              cases hrr : rasterizeSizes tools (td ++ ["scalable", c, k ++ ".svg"]) k td
                  sizes (addDirEntry
                    (writeFile st' (td ++ ["scalable", c, k ++ ".svg"]) data)
                    ("scalable/" ++ c)) with
              | mk st'' e' =>
                rw [hrr] at hras
                cases e' with
                | some err =>
                  simp only [processRow, hE, hF, hnm, hnm', hv, hv',
                    Bool.false_eq_true, if_false, rasterize_png]
                  rw [writeFile_overlay, addDirEntry_overlay, hras, hrr]
                  rfl
                | none =>
                  simp only [processRow, hE, hF, hnm, hnm', hv, hv',
                    Bool.false_eq_true, if_false, rasterize_png]
                  rw [writeFile_overlay, addDirEntry_overlay, hras, hrr]
                  simp only [overlayResult]
                  rw [foldl_addDirEntry_overlay]

theorem buildRows_overlay (tools : Tools) (repo : MaterialRepo) (theme : String)
    (td nd : Path) : (rows : List (List String)) → (st : BuildState) → (f : FS) →
    buildRows tools repo theme td nd rows (overlayState st f) =
      overlayResult (buildRows tools repo theme td nd rows st) f
  | [], _, _ => rfl
  | r :: rest, st, f => by
    simp only [buildRows]
    rw [processRow_overlay]
    cases hp : processRow tools repo theme td nd st r with
    | mk st' e =>
      cases e with
      | none =>
        simp only [overlayResult]
        exact buildRows_overlay tools repo theme td nd rest st' f
      | some err => rfl

theorem generate_index_theme_overlay (td : Path) (de : List String)
    (theme : String) (st : BuildState) (f : FS) :
    generate_index_theme td de theme (overlayState st f) =
      overlayState (generate_index_theme td de theme st) f := by
  simp [generate_index_theme, writeFile_overlay]

theorem main_overlay (tools : Tools) (repo : MaterialRepo)
    (rows : List (List String)) (args : Args) (f g : FS) :
    main tools repo rows args (overlay g f) =
      overlayResult (main tools repo rows args g) f := by
  have hinit : initState (overlay g f) = overlayState (initState g) f := rfl
  simp only [main, hinit]
  rw [buildRows_overlay]
  cases hb : buildRows tools repo args.theme ["material3-plasma-" ++ args.theme]
      ["src", "normalized"] rows (initState g) with
  | mk st e =>
    cases e with
    | none =>
      simp only [overlayResult]
      have hde : (overlayState st f).dirEntries = st.dirEntries := rfl
      rw [hde, generate_index_theme_overlay, logMsg_overlay]
    | some err => rfl

/-- C6: re-running the build over the output tree of a previous run with the
same tools, repository, mapping rows and arguments reproduces that run
exactly: every output file is overwritten with identical content, the same
lines are printed, the same directory entries are collected, and the
resulting output tree equals the tree after the first run. -/
theorem rerun_idempotent (tools : Tools) (repo : MaterialRepo)
    (rows : List (List String)) (args : Args) (fs0 : FS) :
    main tools repo rows args ((main tools repo rows args fs0).1.fs) =
      main tools repo rows args fs0 := by
  have key : ∀ f : FS, main tools repo rows args f =
      overlayResult (main tools repo rows args (fun _ => none)) f := fun f => by
    have h := main_overlay tools repo rows args f (fun _ => none)
    rwa [overlay_empty] at h
  rw [key fs0, key (overlayResult (main tools repo rows args (fun _ => none)) fs0).1.fs]
  simp only [overlayResult, overlayState]
  rw [overlay_overlay]

end MaterialIconsPlasma
